import Mathlib

/-!
Shallow embedding of the `weather_agent` package: a deterministic mock
weather dataset (`WeatherDataset.lookup`), the remote-first / local-fallback
resolver (`query_weather`), and the enumeration of known locations
(`iter_available_locations`).

Strings are modelled with Lean's `String` (a packed `List Char`).  Python's
`str.strip` / `str.lower` are modelled by `pyStrip` / `pyLower`; exceptions
are modelled with `Except PyError`.  The external agent runtime is abstracted
by a `RemoteScript` describing how each step of the remote protocol behaves.
-/

namespace WeatherAgent

/-- Whitespace test used by Python's `str.strip` (space, tab, newline,
carriage return, vertical tab, form feed). -/
def pyIsSpace (c : Char) : Bool :=
  c.toNat = 32 || c.toNat = 9 || c.toNat = 10 || c.toNat = 13 || c.toNat = 11 || c.toNat = 12

/-- Remove leading and trailing whitespace from a character list, as
Python's `str.strip` does. -/
def stripChars (l : List Char) : List Char :=
  ((l.dropWhile pyIsSpace).reverse.dropWhile pyIsSpace).reverse

/-- Model of Python's `str.strip`. -/
def pyStrip (s : String) : String := ⟨stripChars s.data⟩

/-- Model of Python's `str.lower` (ASCII case folding; characters outside
the basic latin uppercase range are unchanged, matching `Char.toLower`). -/
def pyLower (s : String) : String := ⟨s.data.map Char.toLower⟩

/-- Python exceptions relevant to the module: `ValueError` with its message,
and an opaque class for every failure of the remote agent path (missing SDK,
missing credentials, network failure, `AttributeError` from an old runtime,
and so on), which `query_weather` never inspects. -/
inductive PyError
  | valueError (msg : String)
  | remoteError
deriving DecidableEq

instance {e a : Type} [DecidableEq e] [DecidableEq a] : DecidableEq (Except e a) :=
  fun x y => match x, y with
  | .ok u, .ok v => if h : u = v then .isTrue (by rw [h]) else .isFalse (by simp [h])
  | .error u, .error v => if h : u = v then .isTrue (by rw [h]) else .isFalse (by simp [h])
  | .ok _, .error _ => .isFalse (by simp)
  | .error _, .ok _ => .isFalse (by simp)

/-- The frozen dataclass `WeatherDataset`: an immutable table from location
keys to weather description strings.  The Python `dict` is modelled as an
association list in insertion order (Python dicts preserve insertion order);
keys are unique in every table built from a `dict` literal. -/
structure WeatherDataset where
  data : List (String × String)
deriving DecidableEq

/-- Embedding of `WeatherDataset.lookup`:

    key = location.strip().lower()
    if not key: raise ValueError("location 不能为空")
    if key in self.data: return self.data[key]
    return f"(location)：晴，25°C，微风"

where the fallback string interpolates the original, untrimmed `location`.
`dict` membership and access are modelled by `List.find?` on the key. -/
def WeatherDataset.lookup (d : WeatherDataset) (location : String) : Except PyError String :=
  let key := pyLower (pyStrip location)
  if key = "" then .error (.valueError "location 不能为空")
  else
    match d.data.find? (fun p => p.1 = key) with
    | some p => .ok p.2
    | none => .ok (location ++ "：晴，25°C，微风")

/-- The module-level curated table `SIMULATED_DATASET`, verbatim from the
source. -/
def SIMULATED_DATASET : WeatherDataset :=
  ⟨[("北京", "北京：多云，22°C，东北风 3 级"),
    ("上海", "上海：小雨，28°C，湿度 80%"),
    ("广州", "广州：阵雨，30°C，西南风 2 级"),
    ("深圳", "深圳：阴，29°C，湿度 70%"),
    ("成都", "成都：小雨，24°C，西风 1 级")]⟩

/-- Embedding of `_resolve_weather_tool`: read `arguments.get("location", "")`
from the tool-call arguments (an association list; a missing key yields `""`)
and look it up in `SIMULATED_DATASET`.  Python's `str(...)` on the value is
the identity here since argument values are modelled as strings. -/
def resolve_weather_tool (arguments : List (String × String)) : Except PyError String :=
  SIMULATED_DATASET.lookup (((arguments.find? (fun p => p.1 = "location")).map Prod.snd).getD "")

/-- Abstraction of one interaction with the external agent runtime, the
collaborator `query_weather` drives.  Each field tells whether a step of the
remote protocol succeeds and what the runtime hands back:
`runtimeOk` — obtaining/using the client handle (`client or OpenAI()`);
`createOk` — `runtime_client.agents.create(...)`;
`streamOk` — entering the response stream and driving it;
`toolCalls` — the argument mappings of the tool calls the runtime issues,
each resolved locally by `resolve_weather_tool`;
`finalText` — `get_final_response().output_text` (`none` when that raises). -/
structure RemoteScript where
  runtimeOk : Bool
  createOk : Bool
  streamOk : Bool
  toolCalls : List (List (String × String))
  finalText : Option String

/-- Resolve the tool calls issued during streaming, in order; an exception
raised by `resolve_weather_tool` aborts the stream and propagates. -/
def resolveToolCalls : List (List (String × String)) → Except PyError Unit
  | [] => .ok ()
  | args :: rest =>
    match resolve_weather_tool args with
    | .error e => .error e
    | .ok _ => resolveToolCalls rest

/-- The body of `query_weather`'s `try` block: every step of the remote
protocol in order, any failure raising the corresponding exception; on
success the final answer text is returned stripped of surrounding
whitespace (`final_response.output_text.strip()`). -/
def runRemote (script : RemoteScript) : Except PyError String :=
  if script.runtimeOk = false then .error .remoteError
  else if script.createOk = false then .error .remoteError
  else if script.streamOk = false then .error .remoteError
  else
    match resolveToolCalls script.toolCalls with
    | .error e => .error e
    | .ok _ =>
      match script.finalText with
      | none => .error .remoteError
      | some t => .ok (pyStrip t)

/-- Embedding of `query_weather`: try the remote path; on any exception
whatsoever (`except Exception`) fall back to `SIMULATED_DATASET.lookup`,
whose own `ValueError` — raised outside the `try` block — propagates to the
caller. -/
def query_weather (script : RemoteScript) (location : String) : Except PyError String :=
  match runRemote script with
  | .ok t => .ok t
  | .error _ => SIMULATED_DATASET.lookup location

/-- Embedding of `iter_available_locations`: `dataset.data.keys()`, the
table's keys in insertion order.  (The Python source defaults `dataset` to
`SIMULATED_DATASET`; callers here pass the dataset explicitly.) -/
def iter_available_locations (dataset : WeatherDataset) : List String :=
  dataset.data.map Prod.fst

/-! Helper lemmas about characters, `dropWhile`, and the string model. -/

theorem char_toNat_toLower (c : Char) :
    (Char.toLower c).toNat = if 65 ≤ c.toNat ∧ c.toNat ≤ 90 then c.toNat + 32 else c.toNat := by
  unfold Char.toLower
  split
  · rename_i h
    rw [if_pos ⟨h.1, h.2⟩]
    have hv : (c.toNat + 32).isValidChar := Or.inl (by omega)
    rw [Char.ofNat, dif_pos hv]
    rfl
  · rename_i h
    rw [if_neg (by omega)]

theorem pyIsSpace_toLower (c : Char) : pyIsSpace (Char.toLower c) = pyIsSpace c := by
  rw [Bool.eq_iff_iff]
  simp only [pyIsSpace, char_toNat_toLower, Bool.or_eq_true, decide_eq_true_eq]
  split <;> omega

theorem isUpper_eq_decide (c : Char) :
    c.isUpper = decide (65 ≤ c.toNat ∧ c.toNat ≤ 90) := by
  rw [Bool.eq_iff_iff]
  simp only [Char.isUpper, Bool.and_eq_true, decide_eq_true_eq, ge_iff_le,
    UInt32.le_def, BitVec.le_def]
  constructor
  · intro h
    exact ⟨h.1, h.2⟩
  · intro h
    exact ⟨h.1, h.2⟩

theorem isUpper_toLower (c : Char) : (Char.toLower c).isUpper = false := by
  rw [isUpper_eq_decide, decide_eq_false_iff_not, char_toNat_toLower]
  split <;> omega

theorem dropWhile_head_false {α : Type} (p : α → Bool) {l : List α} : ∀ {a : α} {t : List α},
    l.dropWhile p = a :: t → p a = false := by
  induction l with
  | nil => intro a t h; simp [List.dropWhile] at h
  | cons x xs ih =>
    intro a t h
    rw [List.dropWhile_cons] at h
    by_cases hx : p x = true
    · rw [if_pos hx] at h
      exact ih h
    · rw [if_neg hx] at h
      cases h
      exact Bool.eq_false_iff.mpr hx

theorem dropWhile_eq_self_of_head {α : Type} (p : α → Bool) (l : List α)
    (h : ∀ a t, l = a :: t → p a = false) : l.dropWhile p = l := by
  cases l with
  | nil => simp [List.dropWhile]
  | cons x xs =>
    rw [List.dropWhile_cons, if_neg]
    rw [h x xs rfl]
    simp

theorem dropWhile_drops {α : Type} (p : α → Bool) (l : List α) :
    ∃ s, s ++ l.dropWhile p = l := by
  induction l with
  | nil => exact ⟨[], rfl⟩
  | cons x xs ih =>
    by_cases hx : p x = true
    · obtain ⟨s, hs⟩ := ih
      exact ⟨x :: s, by simp [List.dropWhile_cons, hx, hs]⟩
    · exact ⟨[], by simp [List.dropWhile_cons, hx]⟩

theorem dropWhile_map_comm {α : Type} (p : α → Bool) (f : α → α)
    (hf : ∀ c, p (f c) = p c) (l : List α) :
    (l.map f).dropWhile p = (l.dropWhile p).map f := by
  induction l with
  | nil => rfl
  | cons x xs ih =>
    simp only [List.map_cons, List.dropWhile_cons, hf]
    by_cases hx : p x = true
    · simp [hx, ih]
    · simp [hx]

theorem stripChars_head_false {l : List Char} {a : Char} {t : List Char}
    (h : stripChars l = a :: t) : pyIsSpace a = false := by
  unfold stripChars at h
  obtain ⟨s, hs⟩ := dropWhile_drops pyIsSpace (l.dropWhile pyIsSpace).reverse
  have hA : l.dropWhile pyIsSpace = a :: (t ++ s.reverse) := by
    have h2 := congrArg List.reverse hs
    rw [List.reverse_append, List.reverse_reverse] at h2
    rw [h, List.cons_append] at h2
    exact h2.symm
  exact dropWhile_head_false pyIsSpace hA

theorem stripChars_idem (l : List Char) : stripChars (stripChars l) = stripChars l := by
  have h1 : (stripChars l).dropWhile pyIsSpace = stripChars l :=
    dropWhile_eq_self_of_head pyIsSpace _ (fun a t h => stripChars_head_false h)
  show ((stripChars l |>.dropWhile pyIsSpace).reverse.dropWhile pyIsSpace).reverse = stripChars l
  rw [h1]
  show ((((l.dropWhile pyIsSpace).reverse.dropWhile pyIsSpace).reverse).reverse.dropWhile
      pyIsSpace).reverse = stripChars l
  rw [List.reverse_reverse]
  rw [dropWhile_eq_self_of_head pyIsSpace _ (fun a t h => dropWhile_head_false pyIsSpace h)]
  rfl

theorem stripChars_map_toLower (l : List Char) :
    stripChars (l.map Char.toLower) = (stripChars l).map Char.toLower := by
  unfold stripChars
  rw [dropWhile_map_comm pyIsSpace Char.toLower pyIsSpace_toLower, ← List.map_reverse,
    dropWhile_map_comm pyIsSpace Char.toLower pyIsSpace_toLower, ← List.map_reverse]

theorem string_eq_of_data (s t : String) (h : s.data = t.data) : s = t := by
  cases s; cases t; exact congrArg String.mk h

theorem data_pyStrip (s : String) : (pyStrip s).data = stripChars s.data := rfl

theorem data_pyLower (s : String) : (pyLower s).data = s.data.map Char.toLower := rfl

theorem pyLower_eq_empty (s : String) : pyLower s = "" ↔ s = "" := by
  constructor
  · intro h
    have h2 : (pyLower s).data = ([] : List Char) := by rw [h]
    rw [data_pyLower, List.map_eq_nil_iff] at h2
    exact string_eq_of_data _ _ h2
  · intro h
    rw [h]
    rfl

theorem pyStrip_pyLower (s : String) : pyStrip (pyLower s) = pyLower (pyStrip s) :=
  string_eq_of_data _ _ (stripChars_map_toLower s.data)

theorem pyStrip_idem (s : String) : pyStrip (pyStrip s) = pyStrip s :=
  string_eq_of_data _ _ (stripChars_idem s.data)

theorem pyStrip_normalized (s : String) :
    pyStrip (pyLower (pyStrip s)) = pyLower (pyStrip s) := by
  rw [pyStrip_pyLower, pyStrip_idem]

theorem lookup_def (d : WeatherDataset) (s : String) :
    d.lookup s =
      if pyLower (pyStrip s) = "" then .error (.valueError "location 不能为空")
      else
        match d.data.find? (fun p => p.1 = pyLower (pyStrip s)) with
        | some p => .ok p.2
        | none => .ok (s ++ "：晴，25°C，微风") := rfl

theorem lookup_empty_error (d : WeatherDataset) (s : String) (h : pyStrip s = "") :
    d.lookup s = .error (.valueError "location 不能为空") := by
  rw [lookup_def, if_pos ((pyLower_eq_empty _).mpr h)]

theorem lookup_error_inv (d : WeatherDataset) (s : String) (err : PyError)
    (h : d.lookup s = .error err) :
    err = .valueError "location 不能为空" ∧ pyStrip s = "" := by
  rw [lookup_def] at h
  by_cases hk : pyLower (pyStrip s) = ""
  · rw [if_pos hk] at h
    cases h
    exact ⟨rfl, (pyLower_eq_empty _).mp hk⟩
  · rw [if_neg hk] at h
    cases hf : d.data.find? (fun p => p.1 = pyLower (pyStrip s)) with
    | some p => rw [hf] at h; cases h
    | none => rw [hf] at h; cases h

theorem lookup_ok_of_ne_empty (d : WeatherDataset) (s : String)
    (h : pyStrip s ≠ "") : ∃ t, d.lookup s = .ok t := by
  rw [lookup_def, if_neg (fun hc => h ((pyLower_eq_empty _).mp hc))]
  cases hf : d.data.find? (fun p => p.1 = pyLower (pyStrip s)) with
  | some p => exact ⟨p.2, rfl⟩
  | none => exact ⟨s ++ "：晴，25°C，微风", rfl⟩

theorem resolveToolCalls_error_of_mem {args : List (String × String)}
    {calls : List (List (String × String))} {e : PyError}
    (hm : args ∈ calls) (he : resolve_weather_tool args = .error e) :
    ∃ e2, resolveToolCalls calls = .error e2 := by
  induction calls with
  | nil => cases hm
  | cons a rest ih =>
    cases hm with
    | head => exact ⟨e, by rw [resolveToolCalls, he]⟩
    | tail _ hm2 =>
      cases hr : resolve_weather_tool a with
      | error e3 => exact ⟨e3, by rw [resolveToolCalls, hr]⟩
      | ok u =>
        obtain ⟨e2, h2⟩ := ih hm2
        exact ⟨e2, by rw [resolveToolCalls, hr, h2]⟩

theorem runRemote_error_of_toolCalls (script : RemoteScript)
    (h : ∃ e, resolveToolCalls script.toolCalls = .error e) :
    ∃ e, runRemote script = .error e := by
  obtain ⟨e, he⟩ := h
  unfold runRemote
  by_cases h1 : script.runtimeOk = false
  · exact ⟨.remoteError, by rw [if_pos h1]⟩
  · by_cases h2 : script.createOk = false
    · exact ⟨.remoteError, by rw [if_neg h1, if_pos h2]⟩
    · by_cases h3 : script.streamOk = false
      · exact ⟨.remoteError, by rw [if_neg h1, if_neg h2, if_pos h3]⟩
      · exact ⟨e, by rw [if_neg h1, if_neg h2, if_neg h3, he]⟩

theorem query_weather_fallback_of_error (script : RemoteScript) (location : String)
    (h : ∃ e, runRemote script = .error e) :
    query_weather script location = SIMULATED_DATASET.lookup location := by
  obtain ⟨e, he⟩ := h
  unfold query_weather
  rw [he]

/-- C1, counterexample.  The claim says the no-match result is the
whitespace-trimmed location followed by the fixed descriptor, so two inputs
with the same trimmed form would have to yield the same result.  On the
empty table, " x " and "x" both have trimmed, case-folded form "x" (non-empty
and matching no key), yet `lookup` returns different strings: the code
interpolates the original, untrimmed `location` into the fallback, returning
" x ：晴，25°C，微风", which does not start with the trimmed "x". -/
theorem c1_counterexample :
    pyStrip " x " = pyStrip "x" ∧
    pyLower (pyStrip " x ") ≠ "" ∧
    (WeatherDataset.mk []).data.find? (fun p => p.1 = pyLower (pyStrip " x ")) = none ∧
    (WeatherDataset.mk []).lookup " x " = .ok " x ：晴，25°C，微风" ∧
    (WeatherDataset.mk []).lookup " x " ≠ (WeatherDataset.mk []).lookup "x" := by
  decide

/-- C1, amended.  For every input whose trimmed, case-folded form is
non-empty and matches no key of the table, `lookup` returns the original,
untrimmed location string concatenated with the fixed canonical descriptor,
in the fixed format of the code: location, then the fullwidth colon "："
with no space, then "晴，25°C，微风". -/
theorem c1_fallback_untrimmed (d : WeatherDataset) (s : String)
    (h1 : pyLower (pyStrip s) ≠ "")
    (h2 : d.data.find? (fun p => p.1 = pyLower (pyStrip s)) = none) :
    d.lookup s = .ok (s ++ "：晴，25°C，微风") := by
  rw [lookup_def, if_neg h1, h2]

/-- C1, witness for the amended theorem at the empty table and " 巴黎 ". -/
theorem c1_witness :
    (WeatherDataset.mk []).lookup " 巴黎 " = .ok (" 巴黎 " ++ "：晴，25°C，微风") :=
  c1_fallback_untrimmed (WeatherDataset.mk []) " 巴黎 " (by decide) (by decide)

/-- C3: for every Dataset and input, `lookup` fails with the
`InvalidArgument` error (`ValueError "location 不能为空"`) exactly when the
input trims to the empty string, and for every input that is non-empty
after trimming it succeeds with some string, whether or not the location
is in the table. -/
theorem c3_lookup_total_invalid_iff (d : WeatherDataset) (s : String) :
    (d.lookup s = .error (.valueError "location 不能为空") ↔ pyStrip s = "") ∧
    (pyStrip s ≠ "" → ∃ t, d.lookup s = .ok t) := by
  constructor
  · constructor
    · intro h
      exact (lookup_error_inv d s _ h).2
    · intro h
      exact lookup_empty_error d s h
  · exact lookup_ok_of_ne_empty d s

/-- C3, witness: the blank input "  " fails with the `InvalidArgument`
error, and the unknown-but-non-blank input "火星" succeeds. -/
theorem c3_witness :
    (SIMULATED_DATASET.lookup "  " = .error (.valueError "location 不能为空")) ∧
    ∃ t, SIMULATED_DATASET.lookup "火星" = .ok t :=
  ⟨(c3_lookup_total_invalid_iff SIMULATED_DATASET "  ").1.mpr (by decide),
   (c3_lookup_total_invalid_iff SIMULATED_DATASET "火星").2 (by decide)⟩

/-- C5, counterexample.  The claim quantifies over every input whose
trimmed, case-folded form is a key of the table, with no non-emptiness
restriction.  For the table with the single key "", the input "" has
trimmed, case-folded form "" — a key of the table — yet `lookup` raises
`ValueError` instead of returning the stored literal "curated": the
emptiness check fires before the table is consulted. -/
theorem c5_counterexample :
    (("", "curated") ∈ (WeatherDataset.mk [("", "curated")]).data) ∧
    pyLower (pyStrip "") = "" ∧
    (WeatherDataset.mk [("", "curated")]).lookup "" =
      .error (.valueError "location 不能为空") := by
  decide

/-- C5, amended.  For every input string whose trimmed, case-folded form is
non-empty and is a key of the Dataset's table, `lookup` returns exactly
that entry's stored literal text, verbatim. -/
theorem c5_known_key_literal (d : WeatherDataset) (s : String) (e : String × String)
    (h1 : pyLower (pyStrip s) ≠ "")
    (h2 : d.data.find? (fun p => p.1 = pyLower (pyStrip s)) = some e) :
    d.lookup s = .ok e.2 := by
  rw [lookup_def, if_neg h1, h2]

/-- C5, witness: " 北京 " normalizes to the curated key "北京" and returns
its stored literal verbatim. -/
theorem c5_witness :
    SIMULATED_DATASET.lookup " 北京 " = .ok "北京：多云，22°C，东北风 3 级" :=
  c5_known_key_literal SIMULATED_DATASET " 北京 "
    ("北京", "北京：多云，22°C，东北风 3 级") (by decide) (by decide)

/-- C6: for every string that is non-empty after trimming (the spec's
well-formedness condition for locations) and not present after
normalization in the table — in particular for any input on the empty
table — `lookup` returns the input concatenated with the fixed fallback
descriptor, a string having the input as a prefix; it does not raise
`InvalidArgument`. -/
theorem c6_unknown_location_synthetic (d : WeatherDataset) (s : String)
    (h1 : pyStrip s ≠ "")
    (h2 : d.data.find? (fun p => p.1 = pyLower (pyStrip s)) = none) :
    d.lookup s = .ok (s ++ "：晴，25°C，微风") ∧
    ∃ rest, d.lookup s = .ok (s ++ rest) := by
  have h3 : pyLower (pyStrip s) ≠ "" := fun hc => h1 ((pyLower_eq_empty _).mp hc)
  rw [lookup_def, if_neg h3, h2]
  exact ⟨rfl, "：晴，25°C，微风", rfl⟩

/-- C6, witness: the empty table and the input "X" — the synthetic
fallback is returned, not `InvalidArgument`. -/
theorem c6_witness :
    (WeatherDataset.mk []).lookup "X" = .ok ("X" ++ "：晴，25°C，微风") ∧
    ∃ rest, (WeatherDataset.mk []).lookup "X" = .ok ("X" ++ rest) :=
  c6_unknown_location_synthetic (WeatherDataset.mk []) "X" (by decide) (by decide)

/-- C2: whenever the remote protocol fails at any step — missing runtime,
failed agent creation, failed streaming, a tool call the local resolver
rejects, or a missing final response — `query_weather` returns exactly
`SIMULATED_DATASET.lookup location`; no remote-path error reaches the
caller. -/
theorem c2_remote_failure_falls_back (script : RemoteScript) (location : String)
    (h : ∃ e, runRemote script = .error e) :
    query_weather script location = SIMULATED_DATASET.lookup location :=
  query_weather_fallback_of_error script location h

/-- C2, witness: a handle whose runtime cannot be obtained falls back to
the local lookup for "深圳". -/
theorem c2_witness :
    query_weather (RemoteScript.mk false true true [] (some "ignored")) "深圳" =
      SIMULATED_DATASET.lookup "深圳" :=
  c2_remote_failure_falls_back (RemoteScript.mk false true true [] (some "ignored"))
    "深圳" ⟨.remoteError, by decide⟩

/-- C4: a string that trims to empty makes the direct `lookup` fail with
the `ValueError "location 不能为空"` error; `query_weather` with a failing
remote handle fails with the identical error; and this is the only error
`query_weather` can ever surface — every escaping error is that
`InvalidArgument` and implies the input was blank. -/
theorem c4_invalid_argument_only_escape :
    (∀ s, pyStrip s = "" →
      SIMULATED_DATASET.lookup s = .error (.valueError "location 不能为空")) ∧
    (∀ (script : RemoteScript) (s : String), pyStrip s = "" →
      (∃ e, runRemote script = .error e) →
      query_weather script s = .error (.valueError "location 不能为空")) ∧
    (∀ (script : RemoteScript) (s : String) (err : PyError),
      query_weather script s = .error err →
      err = .valueError "location 不能为空" ∧ pyStrip s = "") := by
  refine ⟨fun s h => lookup_empty_error _ s h, ?_, ?_⟩
  · intro script s h hr
    rw [query_weather_fallback_of_error script s hr]
    exact lookup_empty_error _ s h
  · intro script s err h
    unfold query_weather at h
    cases hr : runRemote script with
    | ok t => rw [hr] at h; cases h
    | error e =>
      rw [hr] at h
      exact lookup_error_inv _ s err h

/-- C4, witness: the blank input " " fails identically through the direct
lookup and through `query_weather` with a dead remote handle. -/
theorem c4_witness :
    SIMULATED_DATASET.lookup " " = .error (.valueError "location 不能为空") ∧
    query_weather (RemoteScript.mk false false false [] none) " " =
      .error (.valueError "location 不能为空") :=
  ⟨c4_invalid_argument_only_escape.1 " " (by decide),
   c4_invalid_argument_only_escape.2.1 (RemoteScript.mk false false false [] none) " "
     (by decide) ⟨.remoteError, by decide⟩⟩

/-- C7: `iter_available_locations` is the table's key sequence in insertion
order (the model of `dict.keys()`), a finite list; membership in it is
exactly being a key of the table, so no synthetic fallback entry appears;
and on the curated dataset it is the five city names in insertion order.
Restartability and stability across repeated calls hold because the value
is a pure function of the immutable dataset. -/
theorem c7_iter_locations (d : WeatherDataset) :
    iter_available_locations d = d.data.map Prod.fst ∧
    (∀ x, x ∈ iter_available_locations d ↔ ∃ v, (x, v) ∈ d.data) ∧
    iter_available_locations SIMULATED_DATASET = ["北京", "上海", "广州", "深圳", "成都"] := by
  refine ⟨rfl, ?_, rfl⟩
  intro x
  constructor
  · intro h
    obtain ⟨p, hp, he⟩ := List.mem_map.mp h
    exact ⟨p.2, by rw [← he]; exact hp⟩
  · intro h
    obtain ⟨v, hv⟩ := h
    exact List.mem_map.mpr ⟨(x, v), hv, rfl⟩

/-- C8: `lookup` is a pure, deterministic function of the table and the
input — equal tables and equal inputs give equal results (the embedding of
the frozen dataclass is stateless, so a call cannot change the mapping). -/
theorem c8_lookup_deterministic (d d2 : WeatherDataset) (s t : String)
    (hd : d.data = d2.data) (hs : s = t) : d.lookup s = d2.lookup t := by
  cases d
  cases d2
  cases hd
  cases hs
  rfl

/-- C8, witness at the curated dataset and "上海". -/
theorem c8_witness :
    SIMULATED_DATASET.lookup "上海" = SIMULATED_DATASET.lookup "上海" :=
  c8_lookup_deterministic SIMULATED_DATASET SIMULATED_DATASET "上海" "上海" rfl rfl

/-- C9: the table-match branch compares the normalized input against keys
by exact string equality, so any matched entry's key equals
`strip(s).lower()` — a string with no uppercase letter and no leading or
trailing whitespace.  A table entry whose key is not in normalized form can
therefore never be selected. -/
theorem c9_match_implies_normalized_key (d : WeatherDataset) (s : String)
    (e : String × String)
    (h : d.data.find? (fun p => p.1 = pyLower (pyStrip s)) = some e) :
    e.1 = pyLower (pyStrip s) ∧
    (∀ c ∈ e.1.data, c.isUpper = false) ∧
    pyStrip e.1 = e.1 := by
  have hk : e.1 = pyLower (pyStrip s) := by
    have h2 := List.find?_some h
    simpa using h2
  refine ⟨hk, ?_, ?_⟩
  · intro c hc
    rw [hk, data_pyLower] at hc
    obtain ⟨c0, _, he⟩ := List.mem_map.mp hc
    rw [← he]
    exact isUpper_toLower c0
  · rw [hk]
    exact pyStrip_normalized s

/-- C9, witness: the entry matched by the input " 北京 " has the normalized
key "北京". -/
theorem c9_witness :
    ("北京" : String) = pyLower (pyStrip " 北京 ") ∧
    (∀ c ∈ ("北京" : String).data, c.isUpper = false) ∧
    pyStrip "北京" = "北京" :=
  c9_match_implies_normalized_key SIMULATED_DATASET " 北京 "
    ("北京", "北京：多云，22°C，东北风 3 级") (by decide)

/-- C10: when the tool-call arguments carry no "location" key (so the
empty-string default is used) or carry one whose value is blank after
trimming, `resolve_weather_tool` raises `ValueError "location 不能为空"`;
and if such a tool call occurs in the remote interaction, `query_weather`
catches the exception in its broad handler and returns the local fallback
result. -/
theorem c10_bad_tool_arguments (args : List (String × String))
    (script : RemoteScript) (loc : String)
    (h : args.find? (fun p => p.1 = "location") = none ∨
      ∃ v, args.find? (fun p => p.1 = "location") = some ("location", v) ∧ pyStrip v = "") :
    resolve_weather_tool args = .error (.valueError "location 不能为空") ∧
    (args ∈ script.toolCalls →
      query_weather script loc = SIMULATED_DATASET.lookup loc) := by
  have hres : resolve_weather_tool args = .error (.valueError "location 不能为空") := by
    unfold resolve_weather_tool
    cases h with
    | inl hn =>
      rw [hn]
      exact lookup_empty_error _ _ (by decide)
    | inr hv =>
      obtain ⟨v, hfind, hsv⟩ := hv
      rw [hfind]
      exact lookup_empty_error _ _ hsv
  refine ⟨hres, fun hm => ?_⟩
  exact query_weather_fallback_of_error script loc
    (runRemote_error_of_toolCalls script (resolveToolCalls_error_of_mem hm hres))

/-- C10, witness: a tool call whose arguments name only "city" triggers the
`ValueError`, and a remote interaction containing it falls back to the
local lookup of "上海". -/
theorem c10_witness :
    resolve_weather_tool [("city", "北京")] = .error (.valueError "location 不能为空") ∧
    query_weather (RemoteScript.mk true true true [[("city", "北京")]] (some "sunny")) "上海" =
      SIMULATED_DATASET.lookup "上海" := by
  have h := c10_bad_tool_arguments [("city", "北京")]
    (RemoteScript.mk true true true [[("city", "北京")]] (some "sunny")) "上海"
    (Or.inl (by decide))
  exact ⟨h.1, h.2 (by decide)⟩

end WeatherAgent
